import Mathlib

/-!
Verification of `qsiprep/workflows/dwi/resampling.py`.

The module builds declarative nipype pipeline graphs.  We embed it shallowly:

* `PyVal` models the Python values the small list-shaping helpers operate on;
* `Workflow` is a record of the nodes (with their interface settings) and the
  directed connections that `workflow.connect` declares;
* `init_bold_mni_trans_wf` is translated statement by statement from the
  source (lines 34-196);
* `init_dwi_preproc_trans_wf` (lines 199-362) first executes
  `autobox_t1 = pe.Node(afni.Autobox(), ...)` (line 275), which requires the
  name `afni` to resolve in the module scope; the module's import block
  (lines 13-29) never binds `afni` (nor `NiftiInfo`), so the call raises
  `NameError` before any graph is built.  We model the name lookup explicitly
  against the list of names the module binds, and separately embed the graph
  that the remainder of the function body (lines 286-347) describes as
  `dwi_wf_graph`.
-/

namespace Resampling

/-- Model of the dynamically typed Python values flowing through the helper
functions: strings (file names), integers, booleans, None, and lists. -/
inductive PyVal where
  | str : String → PyVal
  | int : Int → PyVal
  | bool : Bool → PyVal
  | none : PyVal
  | list : List PyVal → PyVal
  deriving Repr

/-- Decidable equality for `PyVal` (nested recursion through `List`). -/
def PyVal.beq : PyVal → PyVal → Bool
  | .str a, .str b => a == b
  | .int a, .int b => a == b
  | .bool a, .bool b => a == b
  | .none, .none => true
  | .list a, .list b => beqList a b
  | _, _ => false
where
  beqList : List PyVal → List PyVal → Bool
  | [], [] => true
  | x :: xs, y :: ys => PyVal.beq x y && beqList xs ys
  | _, _ => false

theorem PyVal.beq_iff (a b : PyVal) : PyVal.beq a b = true ↔ a = b := by
  induction a using PyVal.rec
    (motive_2 := fun l => ∀ m, PyVal.beq.beqList l m = true ↔ l = m)
    generalizing b with
  | str s => cases b <;> simp [PyVal.beq]
  | int i => cases b <;> simp [PyVal.beq]
  | bool bb => cases b <;> simp [PyVal.beq]
  | none => cases b <;> simp [PyVal.beq]
  | list l ih => cases b <;> simp [PyVal.beq, ih]
  | nil => rename_i m; cases m <;> simp [PyVal.beq.beqList]
  | cons x xs ihx ihxs =>
      rename_i m
      cases m with
      | nil => simp [PyVal.beq.beqList]
      | cons y ys => simp [PyVal.beq.beqList, ihx, ihxs]

instance : DecidableEq PyVal := fun a b =>
  decidable_of_iff (PyVal.beq a b = true) (PyVal.beq_iff a b)

/-- Module-level helper (source lines 365-366):
`def _first(inlist): return inlist[0]`.
Indexing an empty list raises `IndexError`, modelled as `Except.error`. -/
def _first (inlist : List PyVal) : Except String PyVal :=
  match inlist with
  | [] => Except.error "IndexError: list index out of range"
  | x :: _ => Except.ok x

namespace BoldMni

/-- Helper defined inside `init_bold_mni_trans_wf` (source lines 122-125):
returns a list argument unchanged, wraps anything else in a singleton list. -/
def _aslist (in_value : PyVal) : PyVal :=
  match in_value with
  | .list l => .list l
  | v => .list [v]

end BoldMni

namespace DwiPreproc

/-- Helper defined inside the `use_fieldwarp=False` branch of
`init_dwi_preproc_trans_wf` (source lines 343-344):
`def _aslist(val): return [val]` — it wraps unconditionally. -/
def _aslist (val : PyVal) : PyVal :=
  .list [val]

end DwiPreproc

/-- How a connection's source value is transformed before delivery, matching
the optional function in a nipype connect tuple `(('field', fn), 'dest')`. -/
inductive Mapper where
  | ident
  | firstFn
  | aslistMni
  | aslistDwi
  deriving DecidableEq, Repr

/-- Applying a connection's mapper to the source value. -/
def applyMapper : Mapper → PyVal → Except String PyVal
  | .ident, v => Except.ok v
  | .firstFn, .list l => _first l
  | .firstFn, _ => Except.error "TypeError: object is not subscriptable"
  | .aslistMni, v => Except.ok (BoldMni._aslist v)
  | .aslistDwi, v => Except.ok (DwiPreproc._aslist v)

/-- The interface an embedded node wraps, with the parameter settings the
source fixes at construction time. -/
inductive Interface where
  | identity (fields : List String)
  | genSamplingRef (fixed_image : String)
  | applyTransforms (interpolation : String) (floatp : Bool)
      (reference_image : Option String)
  | niuMerge (numinputs : Nat)
  | multiApplyTransforms (interpolation : String) (floatp : Bool)
      (copy_dtype : Bool) (reference_image : Option String)
  | nilearnMerge (compress : Bool)
  | fslSplit (dimension : String)
  | subWorkflow (wfname : String) (omp_nthreads : Nat) (pre_mask : Bool)
  deriving DecidableEq, Repr

/-- A pipeline node: its name, wrapped interface, and resource settings. -/
structure Node where
  name : String
  iface : Interface
  mem_gb : Option ℚ
  n_procs : Option Nat
  run_without_submitting : Bool
  deriving DecidableEq, Repr

/-- One declared connection: source node and output port, mapper, destination
node and input port. -/
structure Conn where
  src : String
  srcPort : String
  map : Mapper
  dst : String
  dstPort : String
  deriving DecidableEq, Repr

/-- A workflow graph: the nodes placed in it and the declared connections. -/
structure Workflow where
  name : String
  nodes : List Node
  conns : List Conn
  deriving DecidableEq, Repr

/-- Interface of the node with the given name, when present. -/
def nodeIface (wf : Workflow) (n : String) : Option Interface :=
  (wf.nodes.find? (fun nd => nd.name == n)).map Node.iface

/-- Whether a node with the given name is part of the graph. -/
def hasNode (wf : Workflow) (n : String) : Bool :=
  wf.nodes.any (fun nd => nd.name == n)

/-- The ordered list of (source node, source port, mapper) feeding one input
port of a node, in declaration order. -/
def feedsOf (wf : Workflow) (node port : String) : List (String × String × Mapper) :=
  wf.conns.filterMap (fun c =>
    if c.dst == node && c.dstPort == port then some (c.src, c.srcPort, c.map) else none)

/-- Source line 31: `DEFAULT_MEMORY_MIN_GB = 0.01`. -/
def DEFAULT_MEMORY_MIN_GB : ℚ := 1 / 100

/-- Python `os.path.join` on the two-argument calls the module makes. -/
def opJoin (a b : String) : String := a ++ "/" ++ b

/-- Abstract model of `niworkflows.data.get_dataset` (external library,
treated as an opaque deterministic map from template name to dataset path). -/
def getDataset (template_str : String) : String :=
  "niworkflows-data" ++ "/" ++ template_str

/-- Abstract model of `TEMPLATE_MAP` from `qsiprep.workflows.anatomical`
(outside this module; an opaque deterministic map on template names). -/
def TEMPLATE_MAP (template : String) : String := template

/-- Reference image statically assigned to `mask_mni_tfm` by the dispatch on
`template_out_grid` (source lines 183-195): `none` in the `'native'` branch,
where it is wired from `gen_ref` instead. -/
def mniMaskRef (template_str template_out_grid : String) : Option String :=
  if template_out_grid = "native" then none
  else if template_out_grid = "1mm" ∨ template_out_grid = "2mm" then
    some (opJoin (getDataset template_str) (template_out_grid ++ "_brainmask.nii.gz"))
  else some template_out_grid

/-- Reference image statically assigned to `bold_to_mni_transform` by the same
dispatch (source lines 183-195). -/
def mniBoldRef (template_str template_out_grid : String) : Option String :=
  if template_out_grid = "native" then none
  else if template_out_grid = "1mm" ∨ template_out_grid = "2mm" then
    some (opJoin (getDataset template_str) (template_out_grid ++ "_T1.nii.gz"))
  else some template_out_grid

/-- The nodes `init_bold_mni_trans_wf` places in its graph, in creation order
(source lines 105-168 plus the reference-image assignments of lines 183-195). -/
def mniNodes (template : String) (mem_gb : ℚ) (omp_nthreads : Nat)
    (template_out_grid : String) (use_compression use_fieldwarp : Bool) :
    List Node :=
  let template_str := TEMPLATE_MAP template
  let nxforms : Nat := if use_fieldwarp then 4 else 3
  [ ⟨"inputnode",
      .identity ["itk_bold_to_t1", "t1_2_mni_forward_transform", "name_source",
                 "bold_split", "bold_mask", "hmc_xforms", "fieldwarp"],
      Option.none, Option.none, false⟩,
    ⟨"outputnode", .identity ["bold_mni", "bold_mni_ref", "bold_mask_mni"],
      Option.none, Option.none, false⟩,
    ⟨"gen_ref",
      .genSamplingRef (opJoin (getDataset template_str) "1mm_T1.nii.gz"),
      some (3 / 10), Option.none, false⟩,
    ⟨"mask_mni_tfm",
      .applyTransforms "MultiLabel" true (mniMaskRef template_str template_out_grid),
      some 1, Option.none, false⟩,
    ⟨"mask_merge_tfms", .niuMerge 2, some DEFAULT_MEMORY_MIN_GB, Option.none, true⟩,
    ⟨"merge_xforms", .niuMerge nxforms, some DEFAULT_MEMORY_MIN_GB, Option.none, true⟩,
    ⟨"bold_to_mni_transform",
      .multiApplyTransforms "LanczosWindowedSinc" true true
        (mniBoldRef template_str template_out_grid),
      some (mem_gb * 3 * (omp_nthreads : ℚ)), some omp_nthreads, false⟩,
    ⟨"merge", .nilearnMerge use_compression, some (mem_gb * 3), Option.none, false⟩,
    ⟨"bold_reference_wf", .subWorkflow "bold_reference_wf" omp_nthreads true,
      Option.none, Option.none, false⟩ ]

/-- The connections `init_bold_mni_trans_wf` declares, in declaration order
(source lines 145-148, 150-157, 170-181, and 183-187 for the `'native'`
branch).  They depend only on `use_fieldwarp` and `template_out_grid`. -/
def mniConns (template_out_grid : String) (use_fieldwarp : Bool) : List Conn :=
  [⟨"inputnode", "hmc_xforms", .ident, "merge_xforms",
      if use_fieldwarp then "in4" else "in3"⟩]
  ++ (if use_fieldwarp then
        [⟨"inputnode", "fieldwarp", .ident, "merge_xforms", "in3"⟩]
      else [])
  ++ [⟨"inputnode", "bold_split", .firstFn, "gen_ref", "moving_image"⟩,
      ⟨"inputnode", "bold_mask", .ident, "mask_mni_tfm", "input_image"⟩,
      ⟨"inputnode", "t1_2_mni_forward_transform", .ident, "mask_merge_tfms", "in1"⟩,
      ⟨"inputnode", "itk_bold_to_t1", .aslistMni, "mask_merge_tfms", "in2"⟩,
      ⟨"mask_merge_tfms", "out", .ident, "mask_mni_tfm", "transforms"⟩,
      ⟨"mask_mni_tfm", "output_image", .ident, "outputnode", "bold_mask_mni"⟩,
      ⟨"inputnode", "t1_2_mni_forward_transform", .ident, "merge_xforms", "in1"⟩,
      ⟨"inputnode", "itk_bold_to_t1", .aslistMni, "merge_xforms", "in2"⟩,
      ⟨"merge_xforms", "out", .ident, "bold_to_mni_transform", "transforms"⟩,
      ⟨"inputnode", "name_source", .ident, "merge", "header_source"⟩,
      ⟨"inputnode", "bold_split", .ident, "bold_to_mni_transform", "input_image"⟩,
      ⟨"bold_to_mni_transform", "out_files", .ident, "merge", "in_files"⟩,
      ⟨"merge", "out_file", .ident, "bold_reference_wf", "inputnode.bold_file"⟩,
      ⟨"mask_mni_tfm", "output_image", .ident, "bold_reference_wf", "inputnode.bold_mask"⟩,
      ⟨"merge", "out_file", .ident, "outputnode", "bold_mni"⟩,
      ⟨"bold_reference_wf", "outputnode.ref_image", .ident, "outputnode", "bold_mni_ref"⟩]
  ++ (if template_out_grid = "native" then
        [⟨"gen_ref", "out_file", .ident, "mask_mni_tfm", "reference_image"⟩,
         ⟨"gen_ref", "out_file", .ident, "bold_to_mni_transform", "reference_image"⟩]
      else [])

/-- Embedding of `init_bold_mni_trans_wf` (source lines 34-196). -/
def init_bold_mni_trans_wf (template : String) (mem_gb : ℚ) (omp_nthreads : Nat)
    (name : String) (template_out_grid : String)
    (use_compression use_fieldwarp : Bool) : Workflow :=
  { name := name
    nodes := mniNodes template mem_gb omp_nthreads template_out_grid
      use_compression use_fieldwarp
    conns := mniConns template_out_grid use_fieldwarp }

/-- The names bound at module level of `resampling.py`: the import block
(source lines 13-29), the constant of line 31, and the three module-level
functions.  Neither `afni` nor `NiftiInfo` is among them, although lines
275-283 of `init_dwi_preproc_trans_wf` use both. -/
def resamplingModuleScope : List String :=
  ["op", "pe", "niu", "fs", "FSLSplit", "nid", "GenerateSamplingReference",
   "ApplyTransforms", "Workflow", "MultiApplyTransforms", "Merge",
   "TEMPLATE_MAP", "init_bold_reference_wf", "DEFAULT_MEMORY_MIN_GB",
   "init_bold_mni_trans_wf", "init_dwi_preproc_trans_wf", "_first"]

/-- The nodes the body of `init_dwi_preproc_trans_wf` places in its graph
(source lines 286-347), in creation order.  The four nodes of lines 275-283
(`autobox_t1`, `deoblique_autobox`, `resample_to_dwi`, `dwi_info`) are never
passed to `workflow.connect`, so they are not part of the graph (and their
construction raises `NameError`, handled in `init_dwi_preproc_trans_wf`). -/
def dwiNodes (mem_gb : ℚ) (omp_nthreads : Nat)
    (use_compression use_fieldwarp split_file : Bool)
    (interpolation : String) : List Node :=
  [ ⟨"inputnode",
      .identity ["name_source", "bold_file", "bold_mask", "hmc_xforms", "fieldwarp"],
      Option.none, Option.none, false⟩,
    ⟨"outputnode", .identity ["bold", "bold_mask", "bold_ref", "bold_ref_brain"],
      Option.none, Option.none, false⟩,
    ⟨"bold_transform",
      .multiApplyTransforms interpolation true true Option.none,
      some (mem_gb * 3 * (omp_nthreads : ℚ)), some omp_nthreads, false⟩,
    ⟨"merge", .nilearnMerge use_compression, some (mem_gb * 3), Option.none, false⟩,
    ⟨"bold_reference_wf", .subWorkflow "bold_reference_wf" omp_nthreads false,
      Option.none, Option.none, false⟩ ]
  ++ (if split_file then
        [⟨"bold_split", .fslSplit "t", some (mem_gb * 3), Option.none, false⟩]
      else [])
  ++ (if use_fieldwarp then
        [⟨"merge_xforms", .niuMerge 2, some DEFAULT_MEMORY_MIN_GB, Option.none, true⟩]
      else [])

/-- The connections the body of `init_dwi_preproc_trans_wf` declares
(source lines 306-315, 317-332, 334-347), in declaration order. -/
def dwiConns (use_fieldwarp split_file : Bool) : List Conn :=
  [⟨"inputnode", "name_source", .ident, "merge", "header_source"⟩,
   ⟨"bold_transform", "out_files", .ident, "merge", "in_files"⟩,
   ⟨"merge", "out_file", .ident, "bold_reference_wf", "inputnode.bold_file"⟩,
   ⟨"merge", "out_file", .ident, "outputnode", "bold"⟩,
   ⟨"bold_reference_wf", "outputnode.ref_image", .ident, "outputnode", "bold_ref"⟩,
   ⟨"bold_reference_wf", "outputnode.ref_image_brain", .ident, "outputnode", "bold_ref_brain"⟩,
   ⟨"bold_reference_wf", "outputnode.bold_mask", .ident, "outputnode", "bold_mask"⟩]
  ++ (if split_file then
        [⟨"inputnode", "bold_file", .ident, "bold_split", "in_file"⟩,
         ⟨"bold_split", "out_files", .ident, "bold_transform", "input_image"⟩,
         ⟨"bold_split", "out_files", .firstFn, "bold_transform", "reference_image"⟩]
      else
        [⟨"inputnode", "bold_file", .ident, "bold_transform", "input_image"⟩,
         ⟨"inputnode", "bold_file", .firstFn, "bold_transform", "reference_image"⟩])
  ++ (if use_fieldwarp then
        [⟨"inputnode", "fieldwarp", .ident, "merge_xforms", "in1"⟩,
         ⟨"inputnode", "hmc_xforms", .ident, "merge_xforms", "in2"⟩,
         ⟨"merge_xforms", "out", .ident, "bold_transform", "transforms"⟩]
      else
        [⟨"inputnode", "hmc_xforms", .aslistDwi, "bold_transform", "transforms"⟩])

/-- The workflow graph the body of `init_dwi_preproc_trans_wf` describes
(source lines 286-347) — reachable only if the name lookups of lines 275-283
were to succeed. -/
def dwi_wf_graph (mem_gb : ℚ) (omp_nthreads : Nat) (name : String)
    (use_compression use_fieldwarp split_file : Bool)
    (interpolation : String) : Workflow :=
  { name := name
    nodes := dwiNodes mem_gb omp_nthreads use_compression use_fieldwarp
      split_file interpolation
    conns := dwiConns use_fieldwarp split_file }

/-- Embedding of `init_dwi_preproc_trans_wf` (source lines 199-362).  Its
first statement after the docstring, `autobox_t1 = pe.Node(afni.Autobox(), ...)`
(line 275), looks the name `afni` up in the module scope; the lookup fails
because the import block never binds `afni`, so every call raises `NameError`
before the graph of `dwi_wf_graph` is built. -/
def init_dwi_preproc_trans_wf (mem_gb : ℚ) (omp_nthreads : Nat) (name : String)
    (use_compression use_fieldwarp split_file : Bool)
    (interpolation : String) : Except String Workflow :=
  if "afni" ∈ resamplingModuleScope then
    Except.ok (dwi_wf_graph mem_gb omp_nthreads name use_compression
      use_fieldwarp split_file interpolation)
  else
    Except.error "NameError: name afni is not defined"

/-- C7: the `_aslist` helper defined inside `init_bold_mni_trans_wf` returns
every list argument unchanged, wraps every non-list argument in a one-element
list, and is idempotent. -/
theorem C7_mni_aslist_identity_on_lists_and_idempotent (v : PyVal) (l : List PyVal) :
    BoldMni._aslist (.list l) = .list l
    ∧ ((∀ m : List PyVal, v ≠ .list m) → BoldMni._aslist v = .list [v])
    ∧ BoldMni._aslist (BoldMni._aslist v) = BoldMni._aslist v := by
  refine ⟨rfl, ?_, ?_⟩
  · intro h
    cases v <;> first | rfl | exact absurd rfl (h _)
  · cases v <;> rfl

/-- Witness for C7 at the concrete non-list input `.str "x"`. -/
theorem C7_mni_aslist_witness :
    BoldMni._aslist (.str "x") = .list [.str "x"]
    ∧ BoldMni._aslist (BoldMni._aslist (.str "x")) = BoldMni._aslist (.str "x") :=
  ⟨(C7_mni_aslist_identity_on_lists_and_idempotent (.str "x") []).2.1
      (fun _ h => nomatch h),
   (C7_mni_aslist_identity_on_lists_and_idempotent (.str "x") []).2.2⟩

/-- C8: `_first` returns the first element of every non-empty list (so its
out-of-range error branch is unreachable under the non-emptiness
precondition), and on the empty list it fails with `IndexError`. -/
theorem C8_first_head_of_nonempty :
    (∀ (x : PyVal) (xs : List PyVal), _first (x :: xs) = Except.ok x)
    ∧ _first [] = Except.error "IndexError: list index out of range" :=
  ⟨fun _ _ => rfl, rfl⟩

/-- C9: the inner `_aslist` of the `use_fieldwarp=False` branch of
`init_dwi_preproc_trans_wf` always wraps, even on lists; it is neither the
identity on lists nor idempotent and differs from the `_aslist` of
`init_bold_mni_trans_wf`; `hmc_xforms` reaches `bold_transform.transforms`
through it, so a list value arrives nested one level deeper. -/
theorem C9_dwi_aslist_always_wraps :
    (∀ l : List PyVal, DwiPreproc._aslist (.list l) = .list [.list l])
    ∧ (∃ v : PyVal, DwiPreproc._aslist (DwiPreproc._aslist v) ≠ DwiPreproc._aslist v)
    ∧ (∃ v : PyVal, DwiPreproc._aslist v ≠ BoldMni._aslist v)
    ∧ (∀ (m : ℚ) (o : Nat) (n : String) (uc sp : Bool) (interp : String),
        Conn.mk "inputnode" "hmc_xforms" .aslistDwi "bold_transform" "transforms"
          ∈ (dwi_wf_graph m o n uc false sp interp).conns)
    ∧ (∀ l : List PyVal,
        applyMapper .aslistDwi (.list l) = Except.ok (.list [.list l])) := by
  refine ⟨fun _ => rfl, ⟨.none, by decide⟩, ⟨.list [], by decide⟩, ?_, fun _ => rfl⟩
  intro m o n uc sp interp
  cases sp <;> simp [dwi_wf_graph, dwiConns]

/-- C1: every call of `init_dwi_preproc_trans_wf` raises `NameError` because
line 275 references `afni`, which the module never imports; no workflow is
ever returned. -/
theorem C1_dwi_wf_always_raises_NameError (mem_gb : ℚ) (omp_nthreads : Nat)
    (name : String) (uc fw sp : Bool) (interp : String) :
    init_dwi_preproc_trans_wf mem_gb omp_nthreads name uc fw sp interp
      = Except.error "NameError: name afni is not defined" := by
  simp [init_dwi_preproc_trans_wf, resamplingModuleScope]

/-- C10: workflow construction is deterministic — two calls of
`init_bold_mni_trans_wf` with equal arguments produce identical graphs (same
nodes with the same parameter settings, same connections). -/
theorem C10_mni_wf_deterministic (t t' : String) (m m' : ℚ) (o o' : Nat)
    (n n' g g' : String) (c c' f f' : Bool)
    (ht : t = t') (hm : m = m') (ho : o = o') (hn : n = n') (hg : g = g')
    (hc : c = c') (hf : f = f') :
    init_bold_mni_trans_wf t m o n g c f
      = init_bold_mni_trans_wf t' m' o' n' g' c' f' := by
  subst ht; subst hm; subst ho; subst hn; subst hg; subst hc; subst hf; rfl

/-- Witness for C10 at the docstring example arguments. -/
theorem C10_mni_wf_deterministic_witness :
    init_bold_mni_trans_wf "MNI152NLin2009cAsym" 3 1 "bold_mni_trans_wf" "2mm" true false
      = init_bold_mni_trans_wf "MNI152NLin2009cAsym" 3 1 "bold_mni_trans_wf" "2mm" true false :=
  C10_mni_wf_deterministic _ _ _ _ _ _ _ _ _ _ _ _ _ _
    rfl rfl rfl rfl rfl rfl rfl

/-- C2: in `init_bold_mni_trans_wf` the `merge_xforms` node has 4 input slots
when `use_fieldwarp` is true and 3 otherwise; `hmc_xforms` is wired to the
last slot (`in4` resp. `in3`); `fieldwarp` is wired to `in3` iff
`use_fieldwarp` is true. -/
theorem C2_merge_xforms_slot_count (t : String) (m : ℚ) (o : Nat)
    (n g : String) (uc fw : Bool) :
    (fw = true →
        nodeIface (init_bold_mni_trans_wf t m o n g uc fw) "merge_xforms"
          = some (.niuMerge 4)
        ∧ Conn.mk "inputnode" "hmc_xforms" .ident "merge_xforms" "in4"
            ∈ (init_bold_mni_trans_wf t m o n g uc fw).conns)
    ∧ (fw = false →
        nodeIface (init_bold_mni_trans_wf t m o n g uc fw) "merge_xforms"
          = some (.niuMerge 3)
        ∧ Conn.mk "inputnode" "hmc_xforms" .ident "merge_xforms" "in3"
            ∈ (init_bold_mni_trans_wf t m o n g uc fw).conns)
    ∧ ((Conn.mk "inputnode" "fieldwarp" .ident "merge_xforms" "in3"
          ∈ (init_bold_mni_trans_wf t m o n g uc fw).conns) ↔ fw = true) := by
  by_cases hg : g = "native" <;> cases fw <;>
    simp [init_bold_mni_trans_wf, mniNodes, mniConns, nodeIface, hg]

/-- Witness for C2 with `use_fieldwarp = true`. -/
theorem C2_merge_xforms_slot_count_witness :
    nodeIface (init_bold_mni_trans_wf "T" 3 1 "wf" "2mm" true true) "merge_xforms"
      = some (.niuMerge 4) :=
  ((C2_merge_xforms_slot_count "T" 3 1 "wf" "2mm" true true).1 rfl).1

/-- C3: the composite transform list fed to `merge_xforms` (and hence
delivered to `bold_to_mni_transform`) is, in slot order:
`t1_2_mni_forward_transform` on `in1`, `itk_bold_to_t1` through `_aslist` on
`in2`, then `fieldwarp` on `in3` exactly when `use_fieldwarp` is true, and
`hmc_xforms` in the final slot. -/
theorem C3_transform_composition_order (t : String) (m : ℚ) (o : Nat)
    (n g : String) (uc fw : Bool) :
    feedsOf (init_bold_mni_trans_wf t m o n g uc fw) "merge_xforms" "in1"
      = [("inputnode", "t1_2_mni_forward_transform", Mapper.ident)]
    ∧ feedsOf (init_bold_mni_trans_wf t m o n g uc fw) "merge_xforms" "in2"
      = [("inputnode", "itk_bold_to_t1", Mapper.aslistMni)]
    ∧ Conn.mk "merge_xforms" "out" .ident "bold_to_mni_transform" "transforms"
        ∈ (init_bold_mni_trans_wf t m o n g uc fw).conns
    ∧ (fw = true →
        feedsOf (init_bold_mni_trans_wf t m o n g uc fw) "merge_xforms" "in3"
          = [("inputnode", "fieldwarp", Mapper.ident)]
        ∧ feedsOf (init_bold_mni_trans_wf t m o n g uc fw) "merge_xforms" "in4"
          = [("inputnode", "hmc_xforms", Mapper.ident)])
    ∧ (fw = false →
        feedsOf (init_bold_mni_trans_wf t m o n g uc fw) "merge_xforms" "in3"
          = [("inputnode", "hmc_xforms", Mapper.ident)]
        ∧ feedsOf (init_bold_mni_trans_wf t m o n g uc fw) "merge_xforms" "in4"
          = []) := by
  by_cases hg : g = "native" <;> cases fw <;>
    simp [init_bold_mni_trans_wf, mniConns, feedsOf, hg]

/-- Witness for C3 with `use_fieldwarp = true`. -/
theorem C3_transform_composition_order_witness :
    feedsOf (init_bold_mni_trans_wf "T" 3 1 "wf" "2mm" true true) "merge_xforms" "in3"
      = [("inputnode", "fieldwarp", Mapper.ident)] :=
  (((C3_transform_composition_order "T" 3 1 "wf" "2mm" true true).2.2.2.1) rfl).1

/-- C4: the three-way dispatch on `template_out_grid`: for `'native'` the
reference images of `mask_mni_tfm` and `bold_to_mni_transform` are wired from
`gen_ref`; for `'1mm'`/`'2mm'` they are set to the template-dataset paths
`<grid>_brainmask.nii.gz` and `<grid>_T1.nii.gz`; any other string is used
verbatim as both reference images. -/
theorem C4_template_out_grid_dispatch (t : String) (m : ℚ) (o : Nat)
    (n g : String) (uc fw : Bool) :
    (g = "native" →
        Conn.mk "gen_ref" "out_file" .ident "mask_mni_tfm" "reference_image"
          ∈ (init_bold_mni_trans_wf t m o n g uc fw).conns
        ∧ Conn.mk "gen_ref" "out_file" .ident "bold_to_mni_transform" "reference_image"
            ∈ (init_bold_mni_trans_wf t m o n g uc fw).conns
        ∧ nodeIface (init_bold_mni_trans_wf t m o n g uc fw) "mask_mni_tfm"
            = some (.applyTransforms "MultiLabel" true Option.none)
        ∧ nodeIface (init_bold_mni_trans_wf t m o n g uc fw) "bold_to_mni_transform"
            = some (.multiApplyTransforms "LanczosWindowedSinc" true true Option.none))
    ∧ ((g = "1mm" ∨ g = "2mm") →
        nodeIface (init_bold_mni_trans_wf t m o n g uc fw) "mask_mni_tfm"
          = some (.applyTransforms "MultiLabel" true
              (some (opJoin (getDataset (TEMPLATE_MAP t)) (g ++ "_brainmask.nii.gz"))))
        ∧ nodeIface (init_bold_mni_trans_wf t m o n g uc fw) "bold_to_mni_transform"
            = some (.multiApplyTransforms "LanczosWindowedSinc" true true
                (some (opJoin (getDataset (TEMPLATE_MAP t)) (g ++ "_T1.nii.gz"))))
        ∧ Conn.mk "gen_ref" "out_file" .ident "mask_mni_tfm" "reference_image"
            ∉ (init_bold_mni_trans_wf t m o n g uc fw).conns)
    ∧ (g ≠ "native" ∧ g ≠ "1mm" ∧ g ≠ "2mm" →
        nodeIface (init_bold_mni_trans_wf t m o n g uc fw) "mask_mni_tfm"
          = some (.applyTransforms "MultiLabel" true (some g))
        ∧ nodeIface (init_bold_mni_trans_wf t m o n g uc fw) "bold_to_mni_transform"
            = some (.multiApplyTransforms "LanczosWindowedSinc" true true (some g))
        ∧ Conn.mk "gen_ref" "out_file" .ident "mask_mni_tfm" "reference_image"
            ∉ (init_bold_mni_trans_wf t m o n g uc fw).conns) := by
  refine ⟨?_, ?_, ?_⟩
  · rintro rfl
    cases fw <;>
      simp [init_bold_mni_trans_wf, mniNodes, mniConns, nodeIface,
        mniMaskRef, mniBoldRef]
  · rintro (rfl | rfl) <;> cases fw <;>
      simp [init_bold_mni_trans_wf, mniNodes, mniConns, nodeIface,
        mniMaskRef, mniBoldRef]
  · rintro ⟨h1, h2, h3⟩
    cases fw <;>
      simp [init_bold_mni_trans_wf, mniNodes, mniConns, nodeIface,
        mniMaskRef, mniBoldRef, h1, h2, h3]

/-- Witness for C4 at the `'1mm'` grid. -/
theorem C4_template_out_grid_dispatch_witness :
    nodeIface (init_bold_mni_trans_wf "T" 3 1 "wf" "1mm" true false) "mask_mni_tfm"
      = some (.applyTransforms "MultiLabel" true
          (some (opJoin (getDataset (TEMPLATE_MAP "T")) ("1mm" ++ "_brainmask.nii.gz")))) :=
  ((C4_template_out_grid_dispatch "T" 3 1 "wf" "1mm" true false).2.1 (Or.inl rfl)).1

/-- C5: in the graph built by the body of `init_dwi_preproc_trans_wf`, an
`FSLSplit` node on dimension `'t'` is present iff `split_file` is true; with
splitting, `bold_file` feeds the split node whose output list feeds
`bold_transform.input_image` and whose first element is the reference image;
without splitting, `bold_file` feeds `bold_transform` directly with its first
element as reference image. -/
theorem C5_split_file_branch (m : ℚ) (o : Nat) (n : String)
    (uc fw sp : Bool) (interp : String) :
    (sp = true →
        hasNode (dwi_wf_graph m o n uc fw sp interp) "bold_split" = true
        ∧ nodeIface (dwi_wf_graph m o n uc fw sp interp) "bold_split"
            = some (.fslSplit "t")
        ∧ Conn.mk "inputnode" "bold_file" .ident "bold_split" "in_file"
            ∈ (dwi_wf_graph m o n uc fw sp interp).conns
        ∧ Conn.mk "bold_split" "out_files" .ident "bold_transform" "input_image"
            ∈ (dwi_wf_graph m o n uc fw sp interp).conns
        ∧ Conn.mk "bold_split" "out_files" .firstFn "bold_transform" "reference_image"
            ∈ (dwi_wf_graph m o n uc fw sp interp).conns
        ∧ Conn.mk "inputnode" "bold_file" .ident "bold_transform" "input_image"
            ∉ (dwi_wf_graph m o n uc fw sp interp).conns)
    ∧ (sp = false →
        hasNode (dwi_wf_graph m o n uc fw sp interp) "bold_split" = false
        ∧ Conn.mk "inputnode" "bold_file" .ident "bold_transform" "input_image"
            ∈ (dwi_wf_graph m o n uc fw sp interp).conns
        ∧ Conn.mk "inputnode" "bold_file" .firstFn "bold_transform" "reference_image"
            ∈ (dwi_wf_graph m o n uc fw sp interp).conns
        ∧ Conn.mk "inputnode" "bold_file" .ident "bold_split" "in_file"
            ∉ (dwi_wf_graph m o n uc fw sp interp).conns) := by
  cases sp <;> cases fw <;>
    simp [dwi_wf_graph, dwiNodes, dwiConns, nodeIface, hasNode]

/-- Witness for C5 with `split_file = true`. -/
theorem C5_split_file_branch_witness :
    nodeIface (dwi_wf_graph 3 1 "wf" true false true "LanczosWindowedSinc") "bold_split"
      = some (.fslSplit "t") :=
  ((C5_split_file_branch 3 1 "wf" true false true "LanczosWindowedSinc").1 rfl).2.1

/-- A topological rank for the nodes of `init_bold_mni_trans_wf`. -/
def mniRank (n : String) : Nat :=
  if n = "inputnode" then 0
  else if n = "gen_ref" then 1
  else if n = "mask_merge_tfms" then 1
  else if n = "merge_xforms" then 1
  else if n = "mask_mni_tfm" then 2
  else if n = "bold_to_mni_transform" then 3
  else if n = "merge" then 4
  else if n = "bold_reference_wf" then 5
  else 6

/-- A relation along which a rank strictly increases has no cycle. -/
theorem transGen_irrefl_of_rank {α : Type} (E : α → α → Prop) (rank : α → Nat)
    (h : ∀ a b, E a b → rank a < rank b) (a : α) :
    ¬ Relation.TransGen E a a := by
  intro hc
  have key : ∀ x y, Relation.TransGen E x y → rank x < rank y := by
    intro x y hxy
    induction hxy with
    | single h1 => exact h _ _ h1
    | tail _ h2 ih => exact lt_trans ih (h _ _ h2)
  exact lt_irrefl _ (key a a hc)

/-- Every connection of `init_bold_mni_trans_wf` goes strictly up in
`mniRank`, for every flag combination. -/
theorem mni_conns_ranked (g : String) (fw : Bool) :
    ∀ c ∈ mniConns g fw, mniRank c.src < mniRank c.dst := by
  by_cases hg : g = "native"
  · subst hg; cases fw <;> decide
  · cases fw <;> simp only [mniConns, if_neg hg] <;> decide

/-- C6: for every flag combination (`template_out_grid` arbitrary,
`use_fieldwarp` either value), the connection graph of
`init_bold_mni_trans_wf` is acyclic: no node reaches itself through the
declared connections. -/
theorem C6_mni_graph_acyclic (t : String) (m : ℚ) (o : Nat) (n g : String)
    (uc fw : Bool) (a : String) :
    ¬ Relation.TransGen
        (fun x y => ∃ c ∈ (init_bold_mni_trans_wf t m o n g uc fw).conns,
          c.src = x ∧ c.dst = y) a a := by
  apply transGen_irrefl_of_rank _ mniRank _ a
  rintro x y ⟨c, hc, rfl, rfl⟩
  exact mni_conns_ranked g fw c hc

end Resampling
